import Mathlib

/-!
Shallow embedding of `src/app.py` (SDG 9 unfair-practice detector).

The program is a Streamlit front end around a single dispatch function
`analyze_content(prompt, content_input)` that routes a text or image payload
to a Gemini model endpoint and normalizes every exception from the remote
call into a diagnostic string.  We embed:

  * Python string helpers used by the code (`str.strip`, `str.lower`,
    substring membership via the `in` operator);
  * the two process-wide model handles (`vision_model`, `text_model`);
  * `analyze_content` itself, instrumented with an explicit trace of the
    remote calls it issues; the remote call is an oracle parameter
    `gen : Gen` that either succeeds with generated text or raises with a
    message, which models `generate_content` / `response.text` raising;
  * the `if analyze_button:` handler of the UI layer (input-selection
    policy, results rendering and the download button).
-/

namespace SDG9

/-- ASCII whitespace as recognized by Python's `str.strip()` (the inputs
relevant here are ASCII; Python additionally strips rarer Unicode spaces). -/
def pyIsSpace (c : Char) : Bool :=
  c = ' ' || c = '\t' || c = '\n' || c = '\r' || c = '\x0b' || c = '\x0c'

/-- Python `s.strip()`: drop leading and trailing whitespace. -/
def pyStrip (s : String) : String :=
  ⟨((s.data.dropWhile pyIsSpace).reverse.dropWhile pyIsSpace).reverse⟩

/-- ASCII case folding of one character, as `Char.toLower` does: map an
upper-case letter to its lower-case form 32 code points later. -/
def pyCharLower (c : Char) : Char :=
  if c.isUpper then Char.ofNat (c.toNat + 32) else c

/-- Python `s.lower()` (ASCII case folding, which covers every pattern the
code matches against). -/
def pyLower (s : String) : String :=
  ⟨s.data.map pyCharLower⟩

/-- Boolean substring search on character lists: does the needle occur as a
contiguous run?  This is Python's `needle in hay` on strings. -/
def subMatch (needle : List Char) : List Char → Bool
  | [] => needle.isEmpty
  | c :: t => needle.isPrefixOf (c :: t) || subMatch needle t

/-- Python's substring operator `needle in hay`. -/
def strContains (hay needle : String) : Bool :=
  subMatch needle.data hay.data

/-- A configured Gemini model handle, `genai.GenerativeModel(name)`:
its observable configuration here is the model identifier string. -/
structure GenerativeModel where
  model_name : String
deriving DecidableEq

/-- `vision_model = genai.GenerativeModel('gemini-1.5-flash')` (app.py:23). -/
def vision_model : GenerativeModel :=
  ⟨"gemini-1.5-flash"⟩

/-- `text_model = genai.GenerativeModel('gemini-1.5-flash')` (app.py:24). -/
def text_model : GenerativeModel :=
  ⟨"gemini-1.5-flash"⟩

/-- Which of the two module-level handles a call goes through. -/
inductive EndpointHandle where
  | textModel
  | visionModel
deriving DecidableEq

/-- The model handle each endpoint name is bound to. -/
def endpointModel : EndpointHandle → GenerativeModel
  | .textModel => text_model
  | .visionModel => vision_model

/-- A decoded PIL image object (`PIL.Image.Image`): observable fields are its
pixel dimensions and mode; no field is inspected by `analyze_content`. -/
structure PILImage where
  width : Nat
  height : Nat
  mode : String
deriving DecidableEq

/-- One element of the list passed to `generate_content`. -/
inductive Part where
  | str (s : String)
  | image (img : PILImage)
deriving DecidableEq

/-- Outcome of one remote `generate_content` call (including the subsequent
`response.text` access): generated text, or an exception with message
`str(e)`. -/
inductive GenResult where
  | success (text : String)
  | raise (msg : String)
deriving DecidableEq

/-- The remote model, as an oracle: given the handle used and the request
payload, it either returns text or raises. -/
abbrev Gen := EndpointHandle → List Part → GenResult

/-- Record of one issued remote call: the handle, the `model_input` list, and
the `stream` keyword (`none` when not passed, as in the text call). -/
structure CallRecord where
  endpoint : EndpointHandle
  input : List Part
  stream : Option Bool
deriving DecidableEq

/-- The runtime type of `content_input`: a `str`, a `PIL.Image.Image`, or any
other Python value (carried here as an opaque description). -/
inductive ContentInput where
  | str (s : String)
  | image (img : PILImage)
  | other (descr : String)
deriving DecidableEq

/-- The `except Exception as e:` block of `analyze_content` (app.py:48-60):
builds `error_message` from the generic prefix plus `str(e)`, appends at most
one hint selected by the if/elif chain, and returns the final
`"Error during analysis. Details: ..."` string. -/
def handleException (msg : String) : String :=
  let error_message := "An error occurred during analysis: " ++ msg
  let error_message :=
    if strContains msg "API key not valid" then
      error_message ++ "\nPlease check if your GOOGLE_API_KEY is configured correctly."
    else if strContains (pyLower msg) "content has been blocked"
        || strContains (pyLower msg) "safety settings" then
      error_message ++ "\nThe input may have triggered Google\x27s safety filters."
    else if strContains msg "Resource has been exhausted"
        || strContains (pyLower msg) "quota" then
      error_message ++ "\nAPI quota likely exceeded. Check your usage limits."
    else if strContains msg "Deadline exceeded" then
      error_message ++ "\nThe request timed out. Try again later."
    else
      error_message
  "Error during analysis. Details: " ++ error_message

/-- `analyze_content(prompt, content_input)` (app.py:30-60), instrumented
with the list of remote calls issued.  The `try` block dispatches on the
runtime type of `content_input`; any exception raised by the oracle is
converted by `handleException`.  The vision branch's `response.resolve()` has
no observable effect beyond the call itself and the `stream=False` keyword is
recorded in the trace. -/
def analyze_content (gen : Gen) (prompt : String) (content_input : ContentInput) :
    String × List CallRecord :=
  match content_input with
  | .str s =>
    if (pyStrip s).isEmpty then
      ("Error: Please provide some text to analyze.", [])
    else
      let model_input : List Part := [.str prompt, .str s]
      match gen .textModel model_input with
      | .success t => (t, [⟨.textModel, model_input, none⟩])
      | .raise msg => (handleException msg, [⟨.textModel, model_input, none⟩])
  | .image img =>
    let model_input : List Part := [.str prompt, .image img]
    match gen .visionModel model_input with
    | .success t => (t, [⟨.visionModel, model_input, some false⟩])
    | .raise msg => (handleException msg, [⟨.visionModel, model_input, some false⟩])
  | .other _ =>
    ("Error: Invalid input type provided.", [])

/-- The fixed instruction prompt `SDG9_PROMPT` (app.py:63-76), verbatim. -/
def SDG9_PROMPT : String :=
  "\nYou are an AI assistant specialized in analyzing violations of Sustainable Development Goal 9 (Industry, Innovation, and Infrastructure), focusing specifically on signs of unfair or unsustainable industrial practices based only on the provided input (text description or image).\n\nAnalyze the provided input:\n1. Identify any visual or described elements that might indicate issues related to SDG 9, such as(what given below are only examples, you can bring any element you find, so consuder everything profoundly ):\n   * Unsustainable Industrialization: Excessive smoke/pollution, improper waste disposal, environmental damage (e.g., polluted water, deforestation near factories).\n   * Lack of Resilient Infrastructure: Visibly unsafe factory buildings, damaged infrastructure caused by industrial activity.\n   * Non-Inclusive/Unfair Labor Practices (Visual Cues): Lack of safety equipment, signs of child labor, overcrowded or unsafe environments.\n   * Technological Gaps: Outdated, poorly maintained, or highly polluting machinery.\n2. Explain your reasoning for each identified element, linking it to SDG 9 concerns, profoundly and precisely in the narrative of UN and SDG literature, as if you are an officer of the UN. Acknowledge ONLY and only if input provides limited evidence or if interpretations are uncertain.\n3. If no clear indicators are found, state that clearly.\n\n4. (show Analysis Report instead of conclusion)\x22Analysis Report\x22: If it violates SDG 9, then in the very first sentence, state it starting with \x22YES\x22 (If you have too much uncertainties due to too much limited evidence on the input say Maybe YES type of things); if it doesn\x27t, then state it starting with \x22NO\x22. Make very strong, definitive judgments, as if the judgment is universal. (Focus on indicators which are violating SDG 9 and be very acute in your observation.)\n"

/-- What the user submitted: the text box content and, when a file was
uploaded, its raw bytes. -/
structure Submission where
  input_text : String
  uploaded_image : Option (List Nat)

/-- The download control built after a successful dispatch
(`st.download_button`, app.py:161-166). -/
structure DownloadButton where
  data : String
  file_name : String
  mime : String
deriving DecidableEq

/-- Observable outcome of one press of the analyze button: an image-decoding
error (with `st.stop()`), the missing-input warning (with `st.stop()`), or a
rendered result together with its download button and the remote calls made. -/
inductive HandlerOutcome where
  | imageError (msg : String)
  | noInput (warning : String)
  | result (rendered : String) (download : DownloadButton) (trace : List CallRecord)
deriving DecidableEq

/-- The `if analyze_button:` block (app.py:123-166).  An uploaded image is
decoded (`Image.open`, modelled by the `decode` oracle on the file's bytes)
and takes priority over the text box; otherwise non-blank text is analyzed;
otherwise a warning is shown.  On the analysis paths `analysis_input` is a
decoded image or a non-blank string, so Python's `if analysis_input:`
truthiness test succeeds and the result is rendered and offered for download
as `analysis_result.txt`. -/
def analyze_button_handler (gen : Gen) (decode : List Nat → Except String PILImage)
    (sub : Submission) : HandlerOutcome :=
  match sub.uploaded_image with
  | some bytes =>
    match decode bytes with
    | .error e => .imageError ("Error processing image: " ++ e)
    | .ok img =>
      let r := analyze_content gen SDG9_PROMPT (.image img)
      .result r.1 ⟨r.1, "analysis_result.txt", "text/plain"⟩ r.2
  | none =>
    if (pyStrip sub.input_text).isEmpty then
      .noInput "Please enter text or upload an image for analysis."
    else
      let r := analyze_content gen SDG9_PROMPT (.str sub.input_text)
      .result r.1 ⟨r.1, "analysis_result.txt", "text/plain"⟩ r.2

/-- The calls a handler outcome performed. -/
def outcomeTrace : HandlerOutcome → List CallRecord
  | .result _ _ tr => tr
  | _ => []

/-- Does the dispatcher reach a remote call on this payload?  (Non-blank
strings and every image do; blank strings and foreign types are rejected
locally.) -/
def remoteCalled : ContentInput → Bool
  | .str s => !(pyStrip s).isEmpty
  | .image _ => true
  | .other _ => false

/-- The credential hint appended for an invalid API key. -/
def credentialHint : String :=
  "\nPlease check if your GOOGLE_API_KEY is configured correctly."

/-- The content-policy hint appended for a safety block. -/
def contentPolicyHint : String :=
  "\nThe input may have triggered Google\x27s safety filters."

/-- The quota-exceeded hint. -/
def quotaHint : String :=
  "\nAPI quota likely exceeded. Check your usage limits."

/-- The timeout hint. -/
def timeoutHint : String :=
  "\nThe request timed out. Try again later."

/-- Hint selection as the spec describes it, amended to the code's actual
case sensitivity: at most one of the four canned hints is chosen, in priority
order credential, content-policy, quota, timeout; the match is case-SENSITIVE
for the patterns "API key not valid", "Resource has been exhausted" and
"Deadline exceeded", and case-insensitive for "content has been blocked",
"safety settings" and "quota". -/
def specHintSelection (msg : String) : String :=
  if strContains msg "API key not valid" then
    credentialHint
  else if strContains (pyLower msg) "content has been blocked"
      || strContains (pyLower msg) "safety settings" then
    contentPolicyHint
  else if strContains msg "Resource has been exhausted"
      || strContains (pyLower msg) "quota" then
    quotaHint
  else if strContains msg "Deadline exceeded" then
    timeoutHint
  else
    ""

/-- The empty needle occurs in every haystack. -/
lemma subMatch_nil (hay : List Char) : subMatch [] hay = true := by
  cases hay <;> simp [subMatch, List.isEmpty]

/-- A needle occurs at the head of `needle ++ t`. -/
lemma subMatch_self_append (nd t : List Char) : subMatch nd (nd ++ t) = true := by
  cases nd with
  | nil => exact subMatch_nil t
  | cons a as =>
    simp only [List.cons_append, subMatch, Bool.or_eq_true]
    exact Or.inl (by simp)

/-- Occurrence is preserved by extending the haystack on the left. -/
lemma subMatch_cons (nd t : List Char) (c : Char) (h : subMatch nd t = true) :
    subMatch nd (c :: t) = true := by
  simp [subMatch, h]

/-- Every contiguous occurrence is found by `subMatch`. -/
lemma subMatch_of_infix {nd hay : List Char} (h : nd <:+: hay) :
    subMatch nd hay = true := by
  obtain ⟨s, t, rfl⟩ := h
  induction s with
  | nil => simpa using subMatch_self_append nd t
  | cons c s ih => exact subMatch_cons _ _ _ ih

/-- String-level version: an infix of the haystack is contained in it. -/
lemma strContains_of_infix {hay nd : String} (h : nd.data <:+: hay.data) :
    strContains hay nd = true :=
  subMatch_of_infix h

/-- `handleException` returns the fixed outer prefix, the generic prefix plus
the error text, and then exactly the hint `specHintSelection` picks. -/
lemma handleException_eq (msg : String) :
    handleException msg =
      "Error during analysis. Details: "
        ++ (("An error occurred during analysis: " ++ msg) ++ specHintSelection msg) := by
  unfold handleException specHintSelection credentialHint contentPolicyHint quotaHint timeoutHint
  split_ifs <;> simp

/-- The selected hint is always one of the four canned hints or empty. -/
lemma specHintSelection_cases (msg : String) :
    specHintSelection msg = "" ∨ specHintSelection msg = credentialHint
      ∨ specHintSelection msg = contentPolicyHint
      ∨ specHintSelection msg = quotaHint
      ∨ specHintSelection msg = timeoutHint := by
  unfold specHintSelection
  split_ifs <;> tauto

/-- The diagnostic string opens with the outer prefix immediately followed by
the generic prefix. -/
lemma handleException_contains_prefixes (msg : String) :
    strContains (handleException msg)
      "Error during analysis. Details: An error occurred during analysis: " = true := by
  rw [handleException_eq]
  apply strContains_of_infix
  have hd : ("Error during analysis. Details: An error occurred during analysis: ").data
      = ("Error during analysis. Details: ").data
          ++ ("An error occurred during analysis: ").data := by decide
  rw [hd]
  simp only [String.data_append, ← List.append_assoc]
  exact List.IsPrefix.isInfix
    (List.IsPrefix.trans (List.prefix_append _ _) (List.prefix_append _ _))

/-- The diagnostic string contains the underlying error text. -/
lemma handleException_contains_msg (msg : String) :
    strContains (handleException msg) msg = true := by
  rw [handleException_eq]
  apply strContains_of_infix
  simp only [String.data_append, ← List.append_assoc]
  exact List.infix_append _ _ _

/-- The diagnostic string ends with the selected hint. -/
lemma handleException_contains_hint (msg : String) :
    strContains (handleException msg) (specHintSelection msg) = true := by
  rw [handleException_eq]
  apply strContains_of_infix
  exact ⟨("Error during analysis. Details: ").data
      ++ (("An error occurred during analysis: ").data ++ msg.data), [],
    by simp [List.append_assoc]⟩

/-- When the remote oracle always raises `msg`, every payload that reaches a
remote call yields the normalized diagnostic string. -/
lemma analyze_content_raised (gen : Gen) (prompt msg : String) (ci : ContentInput)
    (hgen : ∀ h inp, gen h inp = .raise msg) (hci : remoteCalled ci = true) :
    (analyze_content gen prompt ci).1 = handleException msg := by
  cases ci with
  | str s =>
    have hs : (pyStrip s).isEmpty = false := by
      simpa [remoteCalled] using hci
    simp [analyze_content, hs, hgen]
  | image img =>
    simp [analyze_content, hgen]
  | other d =>
    simp [remoteCalled] at hci

/-- C1 (counterexample): the claim says the credential pattern is matched
case-insensitively, but the code checks `"API key not valid" in str(e)`
without lowering.  For the all-lower-case message "api key not valid" — which
matches pattern (a) case-insensitively and no other pattern — the returned
diagnostic carries no hint at all, not the credential hint. -/
theorem hint_case_sensitivity_cex :
    strContains (pyLower "api key not valid") "api key not valid" = true ∧
    strContains
      (analyze_content (fun _ _ => .raise "api key not valid") "p" (.str "x")).1
      "Please check if your GOOGLE_API_KEY is configured correctly." = false := by
  constructor
  · decide
  · decide

/-- C1 (amended): for every exception raised by the text-model call, the
diagnostic is the outer prefix, the generic prefix plus the error text, and
at most one of the four canned hints chosen in priority order — where the
credential, resource-exhausted and timeout patterns are matched
case-SENSITIVELY and the content-policy patterns and "quota" are matched
case-insensitively (`specHintSelection`); the hint is always one of the four
or absent. -/
theorem hint_selection_priority (gen : Gen) (prompt s msg : String)
    (hs : (pyStrip s).isEmpty = false)
    (hgen : gen .textModel [.str prompt, .str s] = .raise msg) :
    (analyze_content gen prompt (.str s)).1 =
      "Error during analysis. Details: "
        ++ (("An error occurred during analysis: " ++ msg) ++ specHintSelection msg) ∧
    (specHintSelection msg = "" ∨ specHintSelection msg = credentialHint
      ∨ specHintSelection msg = contentPolicyHint
      ∨ specHintSelection msg = quotaHint
      ∨ specHintSelection msg = timeoutHint) := by
  constructor
  · simp [analyze_content, hs, hgen, handleException_eq]
  · exact specHintSelection_cases msg

/-- C1 (witness): a concrete quota failure on a concrete non-blank text
payload; the selected hint evaluates to the quota hint. -/
theorem hint_selection_priority_witness :
    (analyze_content (fun _ _ => .raise "quota exceeded for today") "p" (.str "hi")).1 =
      "Error during analysis. Details: "
        ++ (("An error occurred during analysis: " ++ "quota exceeded for today")
          ++ specHintSelection "quota exceeded for today") :=
  (hint_selection_priority (fun _ _ => .raise "quota exceeded for today")
    "p" "hi" "quota exceeded for today" (by decide) rfl).1

/-- C2: when the remote call raises, `analyze_content` returns normally with
a string containing the generic prefix followed by the error text; and when
the message is "Deadline exceeded while waiting" the string also contains the
timeout hint. -/
theorem failure_normalized_to_string (gen : Gen) (prompt msg : String) (ci : ContentInput)
    (hgen : ∀ h inp, gen h inp = .raise msg) (hci : remoteCalled ci = true) :
    strContains (analyze_content gen prompt ci).1
      "Error during analysis. Details: An error occurred during analysis: " = true ∧
    strContains (analyze_content gen prompt ci).1 msg = true ∧
    (msg = "Deadline exceeded while waiting" →
      strContains (analyze_content gen prompt ci).1
        "The request timed out. Try again later." = true) := by
  rw [analyze_content_raised gen prompt msg ci hgen hci]
  refine ⟨handleException_contains_prefixes msg, handleException_contains_msg msg, ?_⟩
  intro hmsg
  subst hmsg
  decide

/-- C2 (witness): a concrete timeout failure on a concrete text payload; the
result contains the generic prefix, the error text and the timeout hint. -/
theorem failure_normalized_to_string_witness :
    strContains
      (analyze_content (fun _ _ => .raise "Deadline exceeded while waiting") "p"
        (.str "smoke")).1
      "Error during analysis. Details: An error occurred during analysis: " = true ∧
    strContains
      (analyze_content (fun _ _ => .raise "Deadline exceeded while waiting") "p"
        (.str "smoke")).1
      "Deadline exceeded while waiting" = true ∧
    strContains
      (analyze_content (fun _ _ => .raise "Deadline exceeded while waiting") "p"
        (.str "smoke")).1
      "The request timed out. Try again later." = true := by
  have h := failure_normalized_to_string (fun _ _ => .raise "Deadline exceeded while waiting")
    "p" "Deadline exceeded while waiting" (.str "smoke") (fun _ _ => rfl) (by decide)
  exact ⟨h.1, h.2.1, h.2.2 rfl⟩

/-- C3: a string payload with non-blank trimmed content issues exactly one
request, through the text handle, carrying `[prompt, payload]` with no
`stream` keyword — so the vision handle is never called — and on success the
model's generated text is returned verbatim. -/
theorem text_payload_dispatch (gen : Gen) (prompt s : String)
    (hs : (pyStrip s).isEmpty = false) :
    (analyze_content gen prompt (.str s)).2 =
      [⟨.textModel, [.str prompt, .str s], none⟩] ∧
    ∀ t, gen .textModel [.str prompt, .str s] = .success t →
      (analyze_content gen prompt (.str s)).1 = t := by
  constructor
  · cases h : gen .textModel [.str prompt, .str s] <;> simp [analyze_content, hs, h]
  · intro t ht
    simp [analyze_content, hs, ht]

/-- C3 (witness): a concrete non-blank text payload with a succeeding oracle:
the trace is one text-handle call and the result is the generated text. -/
theorem text_payload_dispatch_witness :
    (analyze_content (fun _ _ => .success "report") "p" (.str "hello")).2 =
      [⟨.textModel, [.str "p", .str "hello"], none⟩] ∧
    (analyze_content (fun _ _ => .success "report") "p" (.str "hello")).1 = "report" := by
  have h := text_payload_dispatch (fun _ _ => .success "report") "p" "hello" (by decide)
  exact ⟨h.1, h.2 "report" rfl⟩

/-- C4: an image payload issues exactly one request, through the vision
handle, carrying `[prompt, payload]` with `stream=False` — so the text handle
is never called — and on success the model's generated text is returned
verbatim. -/
theorem image_payload_dispatch (gen : Gen) (prompt : String) (img : PILImage) :
    (analyze_content gen prompt (.image img)).2 =
      [⟨.visionModel, [.str prompt, .image img], some false⟩] ∧
    ∀ t, gen .visionModel [.str prompt, .image img] = .success t →
      (analyze_content gen prompt (.image img)).1 = t := by
  constructor
  · cases h : gen .visionModel [.str prompt, .image img] <;> simp [analyze_content, h]
  · intro t ht
    simp [analyze_content, ht]

/-- C4 (witness): a concrete image payload with a succeeding oracle: the
trace is one non-streaming vision-handle call and the result is the
generated text. -/
theorem image_payload_dispatch_witness :
    (analyze_content (fun _ _ => .success "report") "p"
        (.image ⟨640, 480, "RGB"⟩)).2 =
      [⟨.visionModel, [.str "p", .image ⟨640, 480, "RGB"⟩], some false⟩] ∧
    (analyze_content (fun _ _ => .success "report") "p"
        (.image ⟨640, 480, "RGB"⟩)).1 = "report" := by
  have h := image_payload_dispatch (fun _ _ => .success "report") "p" ⟨640, 480, "RGB"⟩
  exact ⟨h.1, h.2 "report" rfl⟩

/-- C5: a blank (empty or whitespace-only) string payload is rejected
locally: the fixed empty-text error string is returned and the call trace is
empty, so neither endpoint is invoked. -/
theorem blank_text_rejected (gen : Gen) (prompt s : String)
    (hs : (pyStrip s).isEmpty = true) :
    analyze_content gen prompt (.str s) =
      ("Error: Please provide some text to analyze.", []) := by
  simp [analyze_content, hs]

/-- C5 (witness): a concrete whitespace-only payload under an oracle that
would succeed if called: the fixed error string comes back with an empty
trace. -/
theorem blank_text_rejected_witness :
    analyze_content (fun _ _ => .success "report") "p" (.str " \t \n ") =
      ("Error: Please provide some text to analyze.", []) :=
  blank_text_rejected (fun _ _ => .success "report") "p" " \t \n " (by decide)

/-- C6: a payload that is neither a string nor an image object is rejected
locally with the fixed invalid-input error string and an empty call trace,
so no network call is performed. -/
theorem foreign_payload_rejected (gen : Gen) (prompt d : String) :
    analyze_content gen prompt (.other d) =
      ("Error: Invalid input type provided.", []) :=
  rfl

/-- C7: when an uploaded image is present and decodes, the handler's outcome
does not depend on the text box at all — even when the text box holds
non-blank text — and its trace is exactly one vision-handle call on the
decoded image, so the text endpoint is never called for such a submission. -/
theorem image_priority_over_text (gen : Gen)
    (decode : List Nat → Except String PILImage) (bytes : List Nat) (img : PILImage)
    (text1 text2 : String) (hdec : decode bytes = .ok img) :
    analyze_button_handler gen decode ⟨text1, some bytes⟩ =
      analyze_button_handler gen decode ⟨text2, some bytes⟩ ∧
    outcomeTrace (analyze_button_handler gen decode ⟨text1, some bytes⟩) =
      [⟨.visionModel, [.str SDG9_PROMPT, .image img], some false⟩] := by
  constructor
  · simp [analyze_button_handler, hdec]
  · cases h : gen .visionModel [.str SDG9_PROMPT, .image img] <;>
      simp [analyze_button_handler, hdec, outcomeTrace, analyze_content, h]

/-- C7 (witness): a submission with non-blank text "ignored" and an uploaded
image: the outcome equals that of the same submission with an empty text box,
and the only call is the vision one. -/
theorem image_priority_over_text_witness :
    analyze_button_handler (fun _ _ => .success "report")
        (fun _ => .ok ⟨2, 2, "RGB"⟩) ⟨"ignored", some [1, 2, 3]⟩ =
      analyze_button_handler (fun _ _ => .success "report")
        (fun _ => .ok ⟨2, 2, "RGB"⟩) ⟨"", some [1, 2, 3]⟩ ∧
    outcomeTrace (analyze_button_handler (fun _ _ => .success "report")
        (fun _ => .ok ⟨2, 2, "RGB"⟩) ⟨"ignored", some [1, 2, 3]⟩) =
      [⟨.visionModel, [.str SDG9_PROMPT, .image ⟨2, 2, "RGB"⟩], some false⟩] :=
  image_priority_over_text (fun _ _ => .success "report")
    (fun _ => .ok ⟨2, 2, "RGB"⟩) [1, 2, 3] ⟨2, 2, "RGB"⟩ "ignored" "" rfl

/-- C8: whenever the handler reaches the result state, the download button it
builds offers exactly the rendered string as a text/plain file named
analysis_result.txt — the rendered and downloadable strings are identical. -/
theorem rendered_equals_download (gen : Gen)
    (decode : List Nat → Except String PILImage) (sub : Submission)
    (r : String) (d : DownloadButton) (tr : List CallRecord)
    (h : analyze_button_handler gen decode sub = .result r d tr) :
    d = ⟨r, "analysis_result.txt", "text/plain"⟩ := by
  obtain ⟨tx, ui⟩ := sub
  cases ui with
  | some bytes =>
    cases hdec : decode bytes with
    | error e =>
      simp [analyze_button_handler, hdec] at h
    | ok img =>
      simp only [analyze_button_handler, hdec] at h
      obtain ⟨h1, h2, h3⟩ := by simpa using h
      rw [← h1, ← h2]
  | none =>
    cases hE : (pyStrip tx).isEmpty with
    | true =>
      simp [analyze_button_handler, hE] at h
    | false =>
      simp only [analyze_button_handler, hE, Bool.false_eq_true, if_false] at h
      obtain ⟨h1, h2, h3⟩ := by simpa using h
      rw [← h1, ← h2]

/-- C8 (witness): a concrete text submission reaching the result state; the
download button carries the rendered string under the fixed name and MIME
type. -/
theorem rendered_equals_download_witness :
    (⟨"report", "analysis_result.txt", "text/plain"⟩ : DownloadButton) =
      ⟨"report", "analysis_result.txt", "text/plain"⟩ :=
  rendered_equals_download (fun _ _ => .success "report") (fun _ => .ok ⟨1, 1, "L"⟩)
    ⟨"factory smoke", none⟩ "report"
    ⟨"report", "analysis_result.txt", "text/plain"⟩
    [⟨.textModel, [.str SDG9_PROMPT, .str "factory smoke"], none⟩] rfl

/-- C9: both module-level handles are constructed from the identical model
identifier, so they are equal as configured clients and both endpoint names
resolve to the same model configuration gemini-1.5-flash. -/
theorem endpoints_share_model_config :
    text_model = vision_model ∧
    ∀ h : EndpointHandle, endpointModel h = ⟨"gemini-1.5-flash"⟩ := by
  refine ⟨rfl, fun h => ?_⟩
  cases h <;> rfl

/-- C10: image payloads undergo no local validation: for every image object,
including a degenerate zero-by-zero one, the dispatcher unconditionally
issues exactly one vision-handle call — there is no local-rejection branch
analogous to the blank-text check. -/
theorem image_never_locally_rejected (gen : Gen) (prompt : String) (img : PILImage) :
    (analyze_content gen prompt (.image img)).2 =
      [⟨.visionModel, [.str prompt, .image img], some false⟩] := by
  cases h : gen .visionModel [.str prompt, .image img] <;>
    simp [analyze_content, h]

end SDG9
